import Mathlib

/-!
Shallow embedding of the NSS-MAMOC client application core (`src/App.tsx`):
the domain data model, the session / inactivity monitor, the login precedence
logic, the view router, the initial data load, and the per-action CRUD
handlers.  Backend calls are modelled by passing their results (`Except`) as
explicit arguments; React `useState` setters become functional updates of an
explicit `AppState` record; the `setTimeout` handle of the idle timer is
modelled by the absolute deadline (in milliseconds) the armed timer would
fire at, with `none` standing for a cleared / absent timer.
-/

namespace NSSMamoc

/-- JavaScript `a || b` on an optional string: `undefined`, `null` and the
empty string are falsy, so they yield the default. -/
def orElseStr (o : Option String) (d : String) : String :=
  match o with
  | some v => if v == "" then d else v
  | none => d

/-! ## Domain data model (`src/types/index.ts`) -/

/-- `Student` (legacy participant record). -/
structure Student where
  id : String
  name : String
  rollNumber : String
  email : String
  year : String
  department : String
  programId : String
deriving DecidableEq, Repr

/-- `Program`.  The interface declares `participantIds: string[]`, but the
application code guards it with optional chaining (`program.participantIds?.`)
and at runtime backend records may lack it, so it is modelled as an option,
like the declaredly optional legacy fields. -/
structure Program where
  id : String
  title : String
  description : Option String
  type : String
  startDate : String
  endDate : String
  maxParticipants : Nat
  registrationOpen : Bool
  department : String
  coordinator : String
  participantIds : Option (List String)
  createdAt : String
  date : Option String
  time : Option String
  venue : Option String
  coordinatorIds : Option (List String)
  updatedAt : Option String
  students : Option (List Student)
deriving DecidableEq, Repr

/-- `RegisteredStudent`. -/
structure RegisteredStudent where
  id : String
  name : String
  email : String
  phone : String
  department : String
  year : String
  enrollmentNumber : String
  password : Option String
  createdAt : String
  profileImageUrl : Option String
deriving DecidableEq, Repr

/-- `Coordinator`. -/
structure Coordinator where
  id : String
  name : String
  email : String
  phone : String
  department : String
  position : String
  password : Option String
  isActive : Bool
  createdAt : String
deriving DecidableEq, Repr

/-- `StudentExtraActivity`. -/
structure StudentExtraActivity where
  id : String
  badge : String
  title : String
  content : String
  createdAt : String
deriving DecidableEq, Repr

/-- `CoordinatedProgram`. -/
structure CoordinatedProgram where
  id : String
  title : String
  description : String
  date : String
  time : String
  venue : String
  createdAt : String
deriving DecidableEq, Repr

/-- `StudentReport`. -/
structure StudentReport where
  activities : List StudentExtraActivity
  coordinatedPrograms : List CoordinatedProgram
deriving DecidableEq, Repr

/-- `Department`. -/
structure Department where
  id : String
  name : String
  isActive : Bool
  createdAt : String
deriving DecidableEq, Repr

/-- `OfficerApiResponse` (`src/services/api.ts`): the identity record the
officer login endpoint returns on success. -/
structure OfficerApiRecord where
  id : String
  username : String
  name : String
  email : String
  role : String
  isActive : Bool
  createdAt : String
deriving DecidableEq, Repr

/-- One entry of the hardcoded `officerCredentials` fallback list in
`App.tsx`. -/
structure OfficerCred where
  id : String
  username : String
  password : String
  role : String
deriving DecidableEq, Repr

/-! ## Session state (`App.tsx` `useState` hooks) -/

/-- The `currentUser.type` discriminator. -/
inductive UserType
  | student
  | coordinator
  | officer
deriving DecidableEq, Repr

/-- The `currentUser.data` payload: a student record, a coordinator record,
the officer record returned by the officer API, or the locally constructed
officer object made from a matching fallback credential
(`{ id, name: 'Program Officer', role }`). -/
inductive UserData
  | studentData (s : RegisteredStudent)
  | coordinatorData (c : Coordinator)
  | officerApiData (o : OfficerApiRecord)
  | officerLocalData (id name role : String)
deriving DecidableEq, Repr

/-- `currentUser`: `{ type, data }`. -/
structure CurrentUser where
  type : UserType
  data : UserData
deriving DecidableEq, Repr

/-- The `currentView` discriminator of `App.tsx`. -/
inductive View
  | home
  | programs
  | login
  | student
  | coordinator
  | officer
deriving DecidableEq, Repr

/-- The whole client-side state held by `App`: the domain collections, the
loading flags, the authentication state, the idle-timer handle (modelled as
the absolute deadline it would fire at), and the chronological log of
`alert(...)` calls the handlers have made. -/
structure AppState where
  currentView : View
  programs : List Program
  registeredStudents : List RegisteredStudent
  coordinators : List Coordinator
  departments : List Department
  studentReports : String → Option StudentReport
  isLoading : Bool
  loadingError : Option String
  isLoggedIn : Bool
  currentUser : Option CurrentUser
  officerCredentials : List OfficerCred
  logoutTimer : Option Nat
  alerts : List String

/-- `INACTIVITY_TIMEOUT = 30 * 60 * 1000` milliseconds. -/
def INACTIVITY_TIMEOUT : Nat := 30 * 60 * 1000

/-- The message of the `alert` in `handleAutoLogout`. -/
def autoLogoutMessage : String :=
  "You have been automatically logged out due to inactivity (30 minutes)."

/-! ## Session & inactivity monitor (`App.tsx` lines 104-163, 240-250) -/

/-- `handleLogout`: clear the authentication state, return to the home view
and clear the logout timer. -/
def handleLogout (s : AppState) : AppState :=
  { s with
    isLoggedIn := false
    currentUser := none
    currentView := View.home
    logoutTimer := none }

/-- `handleAutoLogout`: alert once, then `handleLogout`. -/
def handleAutoLogout (s : AppState) : AppState :=
  handleLogout { s with alerts := s.alerts ++ [autoLogoutMessage] }

/-- `resetLogoutTimer`, called at time `now`: clear any pending timer, then,
if logged in, arm a fresh timer for the full `INACTIVITY_TIMEOUT`; the new
timer would fire at absolute time `now + INACTIVITY_TIMEOUT`. -/
def resetLogoutTimer (now : Nat) (s : AppState) : AppState :=
  let cleared := { s with logoutTimer := none }
  if cleared.isLoggedIn then
    { cleared with logoutTimer := some (now + INACTIVITY_TIMEOUT) }
  else
    cleared

/-- The six monitored interaction event kinds of the activity listener. -/
inductive InteractionKind
  | mousedown
  | mousemove
  | keypress
  | scroll
  | touchstart
  | click
deriving DecidableEq, Repr

/-- The events driving the session / timer state machine: a successful login
(which makes the `isLoggedIn` effect run `resetLogoutTimer` and attach the
activity listeners), an explicit logout, a monitored interaction event at
time `now` (the listeners are attached only while logged in), and the firing
of the armed idle timer. -/
inductive SessionEvent
  | loginAs (u : CurrentUser) (view : View) (now : Nat)
  | logoutClick
  | interaction (k : InteractionKind) (now : Nat)
  | timerFire (now : Nat)

/-- One step of the session / timer state machine.  A `timerFire` only has an
effect when a timer is actually armed (a cleared `setTimeout` never runs its
callback); a monitored interaction only reaches `resetLogoutTimer` while
logged in, because the listeners are attached by the `isLoggedIn` effect; the
effect re-runs `resetLogoutTimer` only when `isLoggedIn` flips to `true`. -/
def sessionStep (s : AppState) : SessionEvent → AppState
  | SessionEvent.loginAs u view now =>
    let s' := { s with isLoggedIn := true, currentUser := some u, currentView := view }
    if s.isLoggedIn then s' else resetLogoutTimer now s'
  | SessionEvent.logoutClick => handleLogout s
  | SessionEvent.interaction _ now =>
    if s.isLoggedIn then resetLogoutTimer now s else s
  | SessionEvent.timerFire _ =>
    match s.logoutTimer with
    | some _ => handleAutoLogout s
    | none => s

/-- Run a list of session events from a state. -/
def runSession (s : AppState) (es : List SessionEvent) : AppState :=
  es.foldl sessionStep s

/-- The invariant relating the timer to the session: while logged out no
timer is armed. -/
def timerInv (s : AppState) : Prop :=
  s.isLoggedIn = false → s.logoutTimer = none

/-! ## Login (`App.tsx` `handleLogin`, lines 165-238) -/

/-- The credentials submitted by the login form. -/
structure Credentials where
  id : String
  password : String
deriving DecidableEq, Repr

/-- Response shape of `officersApi.login`. -/
structure OfficerLoginResp where
  success : Bool
  officer : Option OfficerApiRecord
deriving DecidableEq, Repr

/-- Response shape of `coordinatorsApi.login`. -/
structure CoordinatorLoginResp where
  success : Bool
  coordinator : Option Coordinator
deriving DecidableEq, Repr

/-- Response shape of `studentsApi.login`. -/
structure StudentLoginResp where
  success : Bool
  student : Option RegisteredStudent
deriving DecidableEq, Repr

/-- The fallback check performed when the officer login API throws:
`officerCredentials.find(oc => (credentials.id === oc.id || credentials.id
=== oc.username) && credentials.password === oc.password)`. -/
def findFallbackOfficer (creds : Credentials) (ocs : List OfficerCred) : Option OfficerCred :=
  ocs.find? fun oc =>
    (creds.id == oc.id || creds.id == oc.username) && creds.password == oc.password

/-- The state update shared by every successful login branch:
`setCurrentUser`, `setIsLoggedIn(true)`, `setCurrentView(...)`. -/
def loginSucceed (s : AppState) (u : CurrentUser) (view : View) : AppState :=
  { s with currentUser := some u, isLoggedIn := true, currentView := view }

/-- The officer block of `handleLogin`: the try whose body checks
`officerResult.success && officerResult.officer` and whose catch checks the
hardcoded fallback credentials.  `some s'` means this path matched and the
attempt returns with `s'`; `none` means fall through to the next path. -/
def officerLoginBlock (creds : Credentials) (officerRes : Except Unit OfficerLoginResp)
    (s : AppState) : Option AppState :=
  match officerRes with
  | Except.ok r =>
    if r.success then
      match r.officer with
      | some o =>
        some (loginSucceed s ⟨UserType.officer, UserData.officerApiData o⟩ View.officer)
      | none => none
    else none
  | Except.error _ =>
    match findFallbackOfficer creds s.officerCredentials with
    | some oc =>
      some (loginSucceed s
        ⟨UserType.officer, UserData.officerLocalData oc.id "Program Officer" oc.role⟩
        View.officer)
    | none => none

/-- The coordinator block of `handleLogin`: a thrown API call is caught and
falls through. -/
def coordinatorLoginBlock (coordRes : Except Unit CoordinatorLoginResp)
    (s : AppState) : Option AppState :=
  match coordRes with
  | Except.ok r =>
    if r.success then
      match r.coordinator with
      | some c =>
        some (loginSucceed s ⟨UserType.coordinator, UserData.coordinatorData c⟩
          View.coordinator)
      | none => none
    else none
  | Except.error _ => none

/-- The student block of `handleLogin`: a thrown API call is caught and falls
through. -/
def studentLoginBlock (studRes : Except Unit StudentLoginResp)
    (s : AppState) : Option AppState :=
  match studRes with
  | Except.ok r =>
    if r.success then
      match r.student with
      | some st =>
        some (loginSucceed s ⟨UserType.student, UserData.studentData st⟩ View.student)
      | none => none
    else none
  | Except.error _ => none

/-- `handleLogin`.  Each verification path's outcome is an argument: `.ok r`
is a response the endpoint returned, `.error ()` is the endpoint throwing
(failing to reach the verification source).  The officer block runs first
(API, then — only when the API threw — the hardcoded fallback credentials);
then the coordinator block, then the student block; the first block that
matches sets the session and returns.  If no block matches,
`alert('Invalid credentials')` is shown and the state is otherwise
untouched. -/
def handleLogin (creds : Credentials)
    (officerRes : Except Unit OfficerLoginResp)
    (coordRes : Except Unit CoordinatorLoginResp)
    (studRes : Except Unit StudentLoginResp)
    (s : AppState) : AppState :=
  match officerLoginBlock creds officerRes s with
  | some s' => s'
  | none =>
    match coordinatorLoginBlock coordRes s with
    | some s' => s'
    | none =>
      match studentLoginBlock studRes s with
      | some s' => s'
      | none => { s with alerts := s.alerts ++ ["Invalid credentials"] }

/-- Whether the officer verification path yields a positive match: either the
API returned `success` with an officer record, or the API threw and the
submitted credentials match a fallback entry. -/
def officerPathMatches (creds : Credentials) (officerRes : Except Unit OfficerLoginResp)
    (ocs : List OfficerCred) : Bool :=
  match officerRes with
  | Except.ok r => r.success && r.officer.isSome
  | Except.error _ => (findFallbackOfficer creds ocs).isSome

/-- Whether the coordinator verification path yields a positive match; a
thrown API call counts as no match. -/
def coordPathMatches (coordRes : Except Unit CoordinatorLoginResp) : Bool :=
  match coordRes with
  | Except.ok r => r.success && r.coordinator.isSome
  | Except.error _ => false

/-- Whether the student verification path yields a positive match; a thrown
API call counts as no match. -/
def studentPathMatches (studRes : Except Unit StudentLoginResp) : Bool :=
  match studRes with
  | Except.ok r => r.success && r.student.isSome
  | Except.error _ => false

/-! ## View router (`App.tsx` `renderCurrentView`, lines 575-675) -/

/-- The panels `renderCurrentView` can select. -/
inductive Panel
  | homePage
  | programsPage
  | loginPage
  | studentPortal
  | teacherPortal
  | programOfficerPortal
deriving DecidableEq, Repr

/-- `renderCurrentView` as a pure function of the view tag and the session
part of the state: `home`, `programs` and `login` are unguarded; `student`
requires a logged-in student; `coordinator` requires a logged-in coordinator
or officer; `officer` requires a logged-in officer; a failed guard renders
the login page. -/
def renderCurrentView (view : View) (isLoggedIn : Bool)
    (currentUser : Option CurrentUser) : Panel :=
  match view with
  | View.home => Panel.homePage
  | View.programs => Panel.programsPage
  | View.login => Panel.loginPage
  | View.student =>
    if isLoggedIn && (currentUser.map (fun u => u.type) == some UserType.student) then
      Panel.studentPortal
    else Panel.loginPage
  | View.coordinator =>
    if isLoggedIn &&
        ((currentUser.map (fun u => u.type) == some UserType.coordinator) ||
          (currentUser.map (fun u => u.type) == some UserType.officer)) then
      Panel.teacherPortal
    else Panel.loginPage
  | View.officer =>
    if isLoggedIn && (currentUser.map (fun u => u.type) == some UserType.officer) then
      Panel.programOfficerPortal
    else Panel.loginPage

/-- The top-level screen of `App`: loading spinner while `isLoading`, the
connection-error screen when the initial load failed, otherwise the panel
chosen by `renderCurrentView`. -/
inductive Screen
  | loadingScreen
  | connectionErrorScreen
  | mainScreen (p : Panel)
deriving DecidableEq, Repr

/-- The early returns of `App` followed by `renderCurrentView`. -/
def appScreen (s : AppState) : Screen :=
  if s.isLoading then Screen.loadingScreen
  else
    match s.loadingError with
    | some _ => Screen.connectionErrorScreen
    | none => Screen.mainScreen (renderCurrentView s.currentView s.isLoggedIn s.currentUser)

/-! ## Initial data load (`App.tsx` `loadInitialData`, lines 54-101) -/

/-- `StudentReportApiResponse` (the shape `studentReportsApi.getAll`
returns); `activities` and `coordinatedPrograms` may be absent, which the
load handler defaults to `[]`. -/
structure ReportApiRecord where
  id : String
  studentId : String
  studentName : String
  department : String
  year : String
  activities : Option (List StudentExtraActivity)
  coordinatedPrograms : Option (List CoordinatedProgram)
  createdAt : String
  updatedAt : String
deriving DecidableEq, Repr

/-- `Promise.all` over the four initial fetches: succeeds with all four
values when every fetch succeeds, and rejects when any one of them rejects
(with the first rejection in array order standing for the rejection that
settles the combined promise). -/
def promiseAll4 {ε α β γ δ : Type} (a : Except ε α) (b : Except ε β) (c : Except ε γ)
    (d : Except ε δ) : Except ε (α × β × γ × δ) :=
  match a with
  | Except.error e => Except.error e
  | Except.ok va =>
    match b with
    | Except.error e => Except.error e
    | Except.ok vb =>
      match c with
      | Except.error e => Except.error e
      | Except.ok vc =>
        match d with
        | Except.error e => Except.error e
        | Except.ok vd => Except.ok (va, vb, vc, vd)

/-- The `reportsMap` built by `loadInitialData`: for each fetched report
record, key the map by `studentId`, defaulting missing `activities` /
`coordinatedPrograms` to `[]`; a later record for the same student
overwrites an earlier one. -/
def buildReportsMap (reports : List ReportApiRecord) : String → Option StudentReport :=
  reports.foldl
    (fun m r k =>
      if k == r.studentId then
        some ⟨r.activities.getD [], r.coordinatedPrograms.getD []⟩
      else m k)
    (fun _ => none)

/-- `loadInitialData`.  The health check runs first; then the four domain
fetches through `Promise.all`; then the reports fetch, whose own failure is
swallowed into `[]` by `.catch(() => [])`.  Any error before that point
lands in the `catch` block, which records `loadingError` and leaves every
domain collection untouched; the `finally` block always clears
`isLoading`. -/
def loadInitialData (health : Except String Unit)
    (progsRes : Except String (List Program))
    (studsRes : Except String (List RegisteredStudent))
    (coordsRes : Except String (List Coordinator))
    (depsRes : Except String (List Department))
    (reportsRes : Except String (List ReportApiRecord))
    (s : AppState) : AppState :=
  let s0 := { s with isLoading := true, loadingError := none }
  let attempt : Except String AppState :=
    match health with
    | Except.error e => Except.error e
    | Except.ok _ =>
      match promiseAll4 progsRes studsRes coordsRes depsRes with
      | Except.error e => Except.error e
      | Except.ok (programsData, studentsData, coordinatorsData, departmentsData) =>
        let s1 := { s0 with
          programs := programsData
          registeredStudents := studentsData
          coordinators := coordinatorsData
          departments := departmentsData }
        let reportsData := match reportsRes with
          | Except.ok r => r
          | Except.error _ => []
        Except.ok { s1 with studentReports := buildReportsMap reportsData }
  let s2 := match attempt with
    | Except.ok s' => s'
    | Except.error msg => { s0 with loadingError := some msg }
  { s2 with isLoading := false }

/-! ## CRUD handlers (`App.tsx` lines 252-542) -/

/-- `Omit<Program, 'id' | 'createdAt' | 'updatedAt'>`: the payload of the
add / edit program forms. -/
structure ProgramData where
  title : String
  description : Option String
  type : String
  startDate : String
  endDate : String
  maxParticipants : Nat
  registrationOpen : Bool
  department : String
  coordinator : String
  participantIds : Option (List String)
  date : Option String
  time : Option String
  venue : Option String
  coordinatorIds : Option (List String)
  students : Option (List Student)
deriving DecidableEq, Repr

/-- The `coordinatedProgram` record built for each coordinator when a program
is added; `localeTime` stands for the JavaScript
`new Date(startDate).toLocaleTimeString('en-US', ...)` formatting, and the
`newProgram.startDate ? ... : ''` guard tests string truthiness. -/
def coordinatedProgramOfNew (localeTime : String → String) (newProgram : Program) :
    CoordinatedProgram :=
  { id := newProgram.id
    title := newProgram.title
    description := newProgram.description.getD ""
    date := orElseStr newProgram.date ((newProgram.startDate.splitOn "T").headD "")
    time := orElseStr newProgram.time
      (if newProgram.startDate == "" then "" else localeTime newProgram.startDate)
    venue := orElseStr newProgram.venue newProgram.department
    createdAt := newProgram.createdAt }

/-- Insert `cp` into the report of `studentId`: prepend to an existing
report's `coordinatedPrograms`, or create a fresh report. -/
def addCoordinatedProgram (cp : CoordinatedProgram) (reports : String → Option StudentReport)
    (studentId : String) : String → Option StudentReport :=
  fun k =>
    if k == studentId then
      match reports studentId with
      | some existingReport =>
        some { existingReport with coordinatedPrograms := cp :: existingReport.coordinatedPrograms }
      | none => some ⟨[], [cp]⟩
    else reports k

/-- `handleAddProgram`.  `createRes` is the outcome of `programsApi.create`.
On success the new program is prepended and, when `coordinatorIds` is present
and non-empty, each listed coordinator's report gains the built
`coordinatedProgram` (the subsequent backend report updates only log their
failures and change no local state).  On failure an alert is shown and the
state is otherwise untouched. -/
def handleAddProgram (programData : ProgramData) (createRes : Except Unit Program)
    (localeTime : String → String) (s : AppState) : AppState :=
  match createRes with
  | Except.error _ =>
    { s with alerts := s.alerts ++ ["Failed to add program. Please try again."] }
  | Except.ok newProgram =>
    let s1 := { s with programs := newProgram :: s.programs }
    match programData.coordinatorIds with
    | some ids =>
      if ids.length > 0 then
        let cp := coordinatedProgramOfNew localeTime newProgram
        { s1 with studentReports := ids.foldl (addCoordinatedProgram cp) s1.studentReports }
      else s1
    | none => s1

/-- `handleEditProgram`.  `updateRes` is the outcome of `programsApi.update`.
On success the program list entry is replaced and, when the payload carries a
`coordinatorIds` array and the old program was found, the program is removed
from every old coordinator's report and (when the new list is non-empty) a
rebuilt `coordinatedProgram` is prepended to every new coordinator's report.
On failure an alert is shown and the state is otherwise untouched. -/
def handleEditProgram (id : String) (programData : ProgramData)
    (updateRes : Except Unit Program) (s : AppState) : AppState :=
  let oldProgram := s.programs.find? fun p => p.id == id
  match updateRes with
  | Except.error _ =>
    { s with alerts := s.alerts ++ ["Failed to edit program. Please try again."] }
  | Except.ok updatedProgram =>
    let s1 := { s with
      programs := s.programs.map fun program =>
        if program.id == id then updatedProgram else program }
    match oldProgram, programData.coordinatorIds with
    | some oldP, some newIds =>
      let s2 :=
        match oldP.coordinatorIds with
        | some oldIds =>
          let removed := oldIds.foldl
            (fun reports studentId k =>
              if k == studentId then
                match reports studentId with
                | some rep =>
                  some { rep with coordinatedPrograms :=
                    rep.coordinatedPrograms.filter fun p => p.id != id }
                | none => none
              else reports k)
            s1.studentReports
          { s1 with studentReports := removed }
        | none => s1
      if newIds.length > 0 then
        let cp : CoordinatedProgram :=
          { id := id
            title := programData.title
            description := programData.description.getD ""
            date := programData.date.getD ""
            time := programData.time.getD ""
            venue := programData.venue.getD ""
            createdAt := oldP.createdAt }
        let added := newIds.foldl
          (fun reports studentId k =>
            if k == studentId then
              match reports studentId with
              | some existingReport =>
                some { existingReport with coordinatedPrograms :=
                  cp :: existingReport.coordinatedPrograms.filter fun p => p.id != id }
              | none => some ⟨[], [cp]⟩
            else reports k)
          s2.studentReports
        { s2 with studentReports := added }
      else s2
    | _, _ => s1

/-- `handleDeleteProgram`: on success filter the program out; on failure
alert and leave the state untouched. -/
def handleDeleteProgram (id : String) (delRes : Except Unit Unit) (s : AppState) : AppState :=
  match delRes with
  | Except.error _ =>
    { s with alerts := s.alerts ++ ["Failed to delete program. Please try again."] }
  | Except.ok _ =>
    { s with programs := s.programs.filter fun program => program.id != id }

/-- `handleAddParticipants`: a purely local update with no backend call in
this handler — the matching program's `participantIds` is replaced by
`studentIds` and its `updatedAt` stamped with the current time
(`new Date().toISOString()`, passed in as `nowIso`). -/
def handleAddParticipants (programId : String) (studentIds : List String)
    (nowIso : String) (s : AppState) : AppState :=
  { s with programs := s.programs.map fun program =>
      if program.id == programId then
        { program with participantIds := some studentIds, updatedAt := some nowIso }
      else program }

/-- `handleAddStudent`: on success append the created student; on failure
alert and leave the state untouched. -/
def handleAddStudent (createRes : Except Unit RegisteredStudent) (s : AppState) : AppState :=
  match createRes with
  | Except.error _ =>
    { s with alerts := s.alerts ++ ["Failed to add student. Please try again."] }
  | Except.ok newStudent =>
    { s with registeredStudents := s.registeredStudents ++ [newStudent] }

/-- `handleAddCoordinator`: on success append the created coordinator; on
failure alert and leave the state untouched. -/
def handleAddCoordinator (createRes : Except Unit Coordinator) (s : AppState) : AppState :=
  match createRes with
  | Except.error _ =>
    { s with alerts := s.alerts ++ ["Failed to add coordinator. Please try again."] }
  | Except.ok newCoordinator =>
    { s with coordinators := s.coordinators ++ [newCoordinator] }

/-- `handleToggleCoordinatorAccess`: when the coordinator is found, the
update call's success replaces the list entry and its failure alerts; when no
coordinator has the id, nothing happens (no call is made). -/
def handleToggleCoordinatorAccess (id : String) (updateRes : Except Unit Coordinator)
    (s : AppState) : AppState :=
  match s.coordinators.find? (fun c => c.id == id) with
  | none => s
  | some _ =>
    match updateRes with
    | Except.error _ =>
      { s with alerts := s.alerts ++ ["Failed to update coordinator access. Please try again."] }
    | Except.ok updatedCoordinator =>
      { s with coordinators := s.coordinators.map fun c =>
          if c.id == id then updatedCoordinator else c }

/-- `handleEditStudent`: on success replace the list entry; on failure alert
and leave the state untouched. -/
def handleEditStudent (id : String) (updateRes : Except Unit RegisteredStudent)
    (s : AppState) : AppState :=
  match updateRes with
  | Except.error _ =>
    { s with alerts := s.alerts ++ ["Failed to edit student. Please try again."] }
  | Except.ok updatedStudent =>
    { s with registeredStudents := s.registeredStudents.map fun student =>
        if student.id == id then updatedStudent else student }

/-- `handleEditCoordinator`: on success replace the list entry; on failure
alert and leave the state untouched. -/
def handleEditCoordinator (id : String) (updateRes : Except Unit Coordinator)
    (s : AppState) : AppState :=
  match updateRes with
  | Except.error _ =>
    { s with alerts := s.alerts ++ ["Failed to edit coordinator. Please try again."] }
  | Except.ok updatedCoordinator =>
    { s with coordinators := s.coordinators.map fun coordinator =>
        if coordinator.id == id then updatedCoordinator else coordinator }

/-- `handleDeleteStudent`.  `delRes` is the outcome of `studentsApi.delete`;
`reportDelRes` the outcome of `studentReportsApi.delete`, whose failure is
only logged.  On success the student is filtered out of the registered list,
filtered out of every program's `participantIds`
(`program.participantIds?.filter(...) || []`), and the report entry keyed by
the student is deleted.  On failure of the student delete an alert is shown
and the state is otherwise untouched. -/
def handleDeleteStudent (id : String) (delRes : Except Unit Unit)
    (reportDelRes : Except Unit Unit) (s : AppState) : AppState :=
  match delRes with
  | Except.error _ =>
    { s with alerts := s.alerts ++ ["Failed to delete student. Please try again."] }
  | Except.ok _ =>
    let _ := reportDelRes
    let dropFromProgram := fun (program : Program) =>
      let remaining := (program.participantIds.getD []).filter fun participantId =>
        participantId != id
      { program with participantIds := some remaining }
    let s1 := { s with
      registeredStudents := s.registeredStudents.filter fun student => student.id != id
      programs := s.programs.map dropFromProgram }
    { s1 with studentReports := fun k => if k == id then none else s1.studentReports k }

/-- `handleDeleteCoordinator`: on success filter the coordinator out; on
failure alert and leave the state untouched. -/
def handleDeleteCoordinator (id : String) (delRes : Except Unit Unit) (s : AppState) : AppState :=
  match delRes with
  | Except.error _ =>
    { s with alerts := s.alerts ++ ["Failed to delete coordinator. Please try again."] }
  | Except.ok _ =>
    { s with coordinators := s.coordinators.filter fun coordinator => coordinator.id != id }

/-- `handleAddDepartment`: on success append the created department; on
failure alert and leave the state untouched. -/
def handleAddDepartment (createRes : Except Unit Department) (s : AppState) : AppState :=
  match createRes with
  | Except.error _ =>
    { s with alerts := s.alerts ++ ["Failed to add department. Please try again."] }
  | Except.ok newDepartment =>
    { s with departments := s.departments ++ [newDepartment] }

/-- `handleEditDepartment`.  The old department is looked up first; when
absent the handler returns before any backend call.  On a successful update
the department list entry is replaced and every registered student whose
`department` equals the old department's name has it replaced by `newName`.
On failure an alert is shown and the state is otherwise untouched. -/
def handleEditDepartment (id : String) (newName : String)
    (updateRes : Except Unit Department) (s : AppState) : AppState :=
  match s.departments.find? (fun d => d.id == id) with
  | none => s
  | some oldDepartment =>
    match updateRes with
    | Except.error _ =>
      { s with alerts := s.alerts ++ ["Failed to edit department. Please try again."] }
    | Except.ok updatedDepartment =>
      { s with
        departments := s.departments.map fun d =>
          if d.id == id then updatedDepartment else d
        registeredStudents := s.registeredStudents.map fun student =>
          if student.department == oldDepartment.name then
            { student with department := newName }
          else student }

/-- `handleToggleDepartment`: when the department is found, the update call's
success replaces the list entry and its failure alerts; when no department
has the id, nothing happens (no call is made). -/
def handleToggleDepartment (id : String) (updateRes : Except Unit Department)
    (s : AppState) : AppState :=
  match s.departments.find? (fun d => d.id == id) with
  | none => s
  | some _ =>
    match updateRes with
    | Except.error _ =>
      { s with alerts := s.alerts ++ ["Failed to update department status. Please try again."] }
    | Except.ok updatedDepartment =>
      { s with departments := s.departments.map fun d =>
          if d.id == id then updatedDepartment else d }

/-! ## Concrete sample data for evaluating the definitions -/

/-- A sample registered student. -/
def sampleStudent : RegisteredStudent :=
  { id := "S1"
    name := "Asha"
    email := "asha@example.edu"
    phone := "9999999999"
    department := "Physics"
    year := "2"
    enrollmentNumber := "EN1"
    password := some "pw"
    createdAt := "2025-01-01"
    profileImageUrl := none }

/-- A second sample registered student, in another department. -/
def sampleStudent2 : RegisteredStudent :=
  { sampleStudent with
    id := "S2"
    name := "Binu"
    department := "Chemistry"
    enrollmentNumber := "EN2" }

/-- A sample coordinator. -/
def sampleCoordinator : Coordinator :=
  { id := "C1"
    name := "Meera"
    email := "meera@example.edu"
    phone := "8888888888"
    department := "Physics"
    position := "Coordinator"
    password := some "cpw"
    isActive := true
    createdAt := "2025-01-01" }

/-- A sample department. -/
def sampleDepartment : Department :=
  { id := "D1", name := "Physics", isActive := true, createdAt := "2025-01-01" }

/-- A sample program with one participant. -/
def sampleProgram : Program :=
  { id := "P1"
    title := "Blood donation camp"
    description := some "camp"
    type := "academic"
    startDate := "2025-02-01T09:00:00Z"
    endDate := "2025-02-01T11:00:00Z"
    maxParticipants := 100
    registrationOpen := true
    department := "Physics"
    coordinator := "Meera"
    participantIds := some ["S1", "S2"]
    createdAt := "2025-01-15"
    date := some "2025-02-01"
    time := some "09:00"
    venue := some "Main hall"
    coordinatorIds := some ["S1"]
    updatedAt := none
    students := none }

/-- The hardcoded initial `officerCredentials` list of `App.tsx`. -/
def initialOfficerCreds : List OfficerCred :=
  [ { id := "OFFICER001", username := "OFFICER001", password := "NSS@OFFICER2025",
      role := "super admin" },
    { id := "officer001", username := "officer001", password := "nss@mamo",
      role := "super admin" } ]

/-- A logged-out state with empty collections, as after mount. -/
def sampleState : AppState :=
  { currentView := View.home
    programs := []
    registeredStudents := []
    coordinators := []
    departments := []
    studentReports := fun _ => none
    isLoading := false
    loadingError := none
    isLoggedIn := false
    currentUser := none
    officerCredentials := initialOfficerCreds
    logoutTimer := none
    alerts := [] }

/-- A state with a student logged in and the idle timer armed. -/
def sampleLoggedIn : AppState :=
  { sampleState with
    isLoggedIn := true
    currentUser := some ⟨UserType.student, UserData.studentData sampleStudent⟩
    currentView := View.student
    logoutTimer := some INACTIVITY_TIMEOUT }

/-- A populated logged-in state used to evaluate the CRUD handlers. -/
def sampleRichState : AppState :=
  { sampleState with
    programs := [sampleProgram]
    registeredStudents := [sampleStudent, sampleStudent2]
    coordinators := [sampleCoordinator]
    departments := [sampleDepartment]
    studentReports := fun k =>
      if k == "S1" then some ⟨[], []⟩ else none
    isLoggedIn := true
    currentUser := some ⟨UserType.officer,
      UserData.officerLocalData "OFFICER001" "Program Officer" "super admin"⟩
    currentView := View.officer }

/-! ## Theorems -/

/-- The role of the session, when one exists. -/
def sessionRole (currentUser : Option CurrentUser) : Option UserType :=
  currentUser.map fun u => u.type

/-- C2.  View routing: `home`, `programs` and `login` map to their unguarded
panels for every session; `student`, `coordinator` and `officer` map to the
corresponding protected panel exactly when a session exists whose role lies
in `{student}`, `{coordinator, officer}`, `{officer}` respectively, and to
the login panel otherwise; in particular the `officer` view with a
coordinator session always yields the login panel. -/
theorem claim_C2 (b : Bool) (u : Option CurrentUser) :
    renderCurrentView View.home b u = Panel.homePage ∧
    renderCurrentView View.programs b u = Panel.programsPage ∧
    renderCurrentView View.login b u = Panel.loginPage ∧
    renderCurrentView View.student b u =
      (if b = true ∧ sessionRole u = some UserType.student then Panel.studentPortal
        else Panel.loginPage) ∧
    renderCurrentView View.coordinator b u =
      (if b = true ∧ (sessionRole u = some UserType.coordinator ∨
          sessionRole u = some UserType.officer) then Panel.teacherPortal
        else Panel.loginPage) ∧
    renderCurrentView View.officer b u =
      (if b = true ∧ sessionRole u = some UserType.officer then Panel.programOfficerPortal
        else Panel.loginPage) ∧
    ∀ d : UserData,
      renderCurrentView View.officer b (some ⟨UserType.coordinator, d⟩) = Panel.loginPage := by
  refine ⟨rfl, rfl, rfl, ?_, ?_, ?_, ?_⟩
  · rcases u with _ | ⟨t, d⟩ <;> cases b <;> try rfl
    all_goals cases t <;> simp [renderCurrentView, sessionRole]
  · rcases u with _ | ⟨t, d⟩ <;> cases b <;> try rfl
    all_goals cases t <;> simp [renderCurrentView, sessionRole]
  · rcases u with _ | ⟨t, d⟩ <;> cases b <;> try rfl
    all_goals cases t <;> simp [renderCurrentView, sessionRole]
  · intro d
    cases b <;> rfl

/-- C5.  Timer expiry while a timer is armed surfaces the auto-logout alert
exactly once and then performs exactly the state change of an explicit
logout: `isLoggedIn` false, current user cleared, view reset to home, timer
cleared, everything else as `handleLogout` leaves it. -/
theorem claim_C5 (s : AppState) (d now : Nat) (h : s.logoutTimer = some d) :
    sessionStep s (SessionEvent.timerFire now) =
      { handleLogout s with alerts := s.alerts ++ [autoLogoutMessage] } ∧
    (sessionStep s (SessionEvent.timerFire now)).alerts.length = s.alerts.length + 1 := by
  have hstep : sessionStep s (SessionEvent.timerFire now) = handleAutoLogout s := by
    simp [sessionStep, h]
  rw [hstep]
  constructor
  · simp [handleAutoLogout, handleLogout]
  · simp [handleAutoLogout, handleLogout]

/-- C5 witness: at the sample logged-in state a timer firing logs the user
out and appends exactly one alert. -/
theorem claim_C5_witness :
    sessionStep sampleLoggedIn (SessionEvent.timerFire 1800000) =
      { handleLogout sampleLoggedIn with
        alerts := sampleLoggedIn.alerts ++ [autoLogoutMessage] } ∧
    (sessionStep sampleLoggedIn (SessionEvent.timerFire 1800000)).alerts.length =
      sampleLoggedIn.alerts.length + 1 :=
  claim_C5 sampleLoggedIn INACTIVITY_TIMEOUT 1800000 rfl

/-- The session events produced by a list of monitored interaction
occurrences `(kind, time)`. -/
def interactionEvents (ks : List (InteractionKind × Nat)) : List SessionEvent :=
  ks.map fun e => SessionEvent.interaction e.1 e.2

lemma interaction_step_loggedIn (s : AppState) (h : s.isLoggedIn = true)
    (k : InteractionKind) (now : Nat) :
    sessionStep s (SessionEvent.interaction k now) =
      { s with logoutTimer := some (now + INACTIVITY_TIMEOUT) } := by
  simp [sessionStep, h, resetLogoutTimer]

lemma interactionEvents_run (ks : List (InteractionKind × Nat)) (s : AppState)
    (h : s.isLoggedIn = true) (k : InteractionKind) (t : Nat)
    (hlast : ks.getLast? = some (k, t)) :
    (runSession s (interactionEvents ks)).logoutTimer = some (t + INACTIVITY_TIMEOUT) ∧
    (runSession s (interactionEvents ks)).isLoggedIn = true := by
  induction ks generalizing s with
  | nil => simp at hlast
  | cons a ks ih =>
    cases ks with
    | nil =>
      simp only [List.getLast?_singleton, Option.some.injEq] at hlast
      subst hlast
      simp [runSession, interactionEvents, interaction_step_loggedIn s h, h]
    | cons b rest =>
      have hlast' : (b :: rest).getLast? = some (k, t) := by
        rwa [List.getLast?_cons_cons] at hlast
      have hstep := interaction_step_loggedIn s h a.1 a.2
      have hrun : runSession s (interactionEvents (a :: b :: rest)) =
          runSession (sessionStep s (SessionEvent.interaction a.1 a.2))
            (interactionEvents (b :: rest)) := by
        simp [runSession, interactionEvents]
      rw [hrun, hstep]
      exact ih _ (by simp [h]) hlast'

/-- C3.  Idle-timer rearm: for every nonempty sequence of monitored
interaction events occurring while logged in, after the last event (at time
`t`) the armed timer's deadline is exactly `t + INACTIVITY_TIMEOUT`, i.e. its
remaining duration is the full configured 30 minutes (1,800,000 ms), never
less; the session stays logged in throughout. -/
theorem claim_C3 (s : AppState) (h : s.isLoggedIn = true)
    (ks : List (InteractionKind × Nat)) (k : InteractionKind) (t : Nat)
    (hlast : ks.getLast? = some (k, t)) :
    (runSession s (interactionEvents ks)).logoutTimer = some (t + INACTIVITY_TIMEOUT) ∧
    (runSession s (interactionEvents ks)).isLoggedIn = true ∧
    INACTIVITY_TIMEOUT = 1800000 := by
  obtain ⟨h1, h2⟩ := interactionEvents_run ks s h k t hlast
  exact ⟨h1, h2, rfl⟩

/-- C3 witness: two interactions at times 0 and 60000 while logged in leave
the timer armed for 60000 + 1,800,000. -/
theorem claim_C3_witness :
    (runSession sampleLoggedIn
        (interactionEvents [(InteractionKind.click, 0), (InteractionKind.mousemove, 60000)])
      ).logoutTimer = some (60000 + INACTIVITY_TIMEOUT) ∧
    (runSession sampleLoggedIn
        (interactionEvents [(InteractionKind.click, 0), (InteractionKind.mousemove, 60000)])
      ).isLoggedIn = true ∧
    INACTIVITY_TIMEOUT = 1800000 :=
  claim_C3 sampleLoggedIn rfl [(InteractionKind.click, 0), (InteractionKind.mousemove, 60000)]
    InteractionKind.mousemove 60000 rfl

/-- C4.  Timer cancellation on logout: the explicit-logout and auto-logout
transitions both leave no armed timer; the invariant "logged out implies no
armed timer" is preserved by every session event; and in a state satisfying
it, while logged out a timer-fire event is a no-op (no timer ever fires while
logged out). -/
theorem claim_C4 :
    (∀ s : AppState, (handleLogout s).logoutTimer = none) ∧
    (∀ s : AppState, (handleAutoLogout s).logoutTimer = none) ∧
    (∀ (s : AppState) (e : SessionEvent), timerInv s → timerInv (sessionStep s e)) ∧
    (∀ (s : AppState) (now : Nat), timerInv s → s.isLoggedIn = false →
      sessionStep s (SessionEvent.timerFire now) = s) := by
  refine ⟨fun s => rfl, fun s => rfl, ?_, ?_⟩
  · intro s e h
    cases e with
    | loginAs u view now =>
      intro hout
      cases hl : s.isLoggedIn with
      | true => simp [sessionStep, hl] at hout
      | false => simp [sessionStep, hl, resetLogoutTimer] at hout
    | logoutClick =>
      intro _
      rfl
    | interaction k now =>
      intro hout
      cases hl : s.isLoggedIn with
      | true =>
        rw [interaction_step_loggedIn s hl] at hout
        simp at hout
        simp [hout] at hl
      | false =>
        simp only [sessionStep, hl, Bool.false_eq_true, if_false] at hout ⊢
        exact h hl
    | timerFire now =>
      intro hout
      cases htimer : s.logoutTimer with
      | some d => simp [sessionStep, htimer, handleAutoLogout, handleLogout]
      | none =>
        simp only [sessionStep, htimer] at hout ⊢
  · intro s now h hl
    have : s.logoutTimer = none := h hl
    simp [sessionStep, this]

/-- C4 witness: at the logged-out sample state (which satisfies the
invariant) a timer-fire event changes nothing. -/
theorem claim_C4_witness :
    sessionStep sampleState (SessionEvent.timerFire 5) = sampleState :=
  claim_C4.2.2.2 sampleState 5 (fun _ => rfl) rfl

lemma officerLoginBlock_matches (creds : Credentials) (oRes : Except Unit OfficerLoginResp)
    (s : AppState) (h : officerPathMatches creds oRes s.officerCredentials = true) :
    ∃ u : CurrentUser, u.type = UserType.officer ∧
      officerLoginBlock creds oRes s = some (loginSucceed s u View.officer) := by
  cases oRes with
  | ok r =>
    simp only [officerPathMatches, Bool.and_eq_true, Option.isSome_iff_exists] at h
    obtain ⟨hs, o, ho⟩ := h
    exact ⟨⟨UserType.officer, UserData.officerApiData o⟩, rfl,
      by simp [officerLoginBlock, hs, ho]⟩
  | error e =>
    simp only [officerPathMatches, Option.isSome_iff_exists] at h
    obtain ⟨oc, hoc⟩ := h
    exact ⟨⟨UserType.officer, UserData.officerLocalData oc.id "Program Officer" oc.role⟩, rfl,
      by simp [officerLoginBlock, hoc]⟩

lemma officerLoginBlock_no_match (creds : Credentials) (oRes : Except Unit OfficerLoginResp)
    (s : AppState) (h : officerPathMatches creds oRes s.officerCredentials = false) :
    officerLoginBlock creds oRes s = none := by
  cases oRes with
  | ok r =>
    simp only [officerPathMatches, Bool.and_eq_false_iff] at h
    rcases h with h | h
    · simp [officerLoginBlock, h]
    · have ho : r.officer = none := Option.not_isSome_iff_eq_none.mp (by simp [h])
      cases hs : r.success <;> simp [officerLoginBlock, hs, ho]
  | error e =>
    simp only [officerPathMatches] at h
    have hoc : findFallbackOfficer creds s.officerCredentials = none :=
      Option.not_isSome_iff_eq_none.mp (by simp [h])
    simp [officerLoginBlock, hoc]

lemma coordinatorLoginBlock_matches (cRes : Except Unit CoordinatorLoginResp)
    (s : AppState) (h : coordPathMatches cRes = true) :
    ∃ c : Coordinator,
      coordinatorLoginBlock cRes s =
        some (loginSucceed s ⟨UserType.coordinator, UserData.coordinatorData c⟩
          View.coordinator) := by
  cases cRes with
  | ok r =>
    simp only [coordPathMatches, Bool.and_eq_true, Option.isSome_iff_exists] at h
    obtain ⟨hs, c, hc⟩ := h
    exact ⟨c, by simp [coordinatorLoginBlock, hs, hc]⟩
  | error e => simp [coordPathMatches] at h

lemma coordinatorLoginBlock_no_match (cRes : Except Unit CoordinatorLoginResp)
    (s : AppState) (h : coordPathMatches cRes = false) :
    coordinatorLoginBlock cRes s = none := by
  cases cRes with
  | ok r =>
    simp only [coordPathMatches, Bool.and_eq_false_iff] at h
    rcases h with h | h
    · simp [coordinatorLoginBlock, h]
    · have hc : r.coordinator = none := Option.not_isSome_iff_eq_none.mp (by simp [h])
      cases hs : r.success <;> simp [coordinatorLoginBlock, hs, hc]
  | error e => rfl

lemma studentLoginBlock_matches (stRes : Except Unit StudentLoginResp)
    (s : AppState) (h : studentPathMatches stRes = true) :
    ∃ st : RegisteredStudent,
      studentLoginBlock stRes s =
        some (loginSucceed s ⟨UserType.student, UserData.studentData st⟩ View.student) := by
  cases stRes with
  | ok r =>
    simp only [studentPathMatches, Bool.and_eq_true, Option.isSome_iff_exists] at h
    obtain ⟨hs, st, hst⟩ := h
    exact ⟨st, by simp [studentLoginBlock, hs, hst]⟩
  | error e => simp [studentPathMatches] at h

lemma studentLoginBlock_no_match (stRes : Except Unit StudentLoginResp)
    (s : AppState) (h : studentPathMatches stRes = false) :
    studentLoginBlock stRes s = none := by
  cases stRes with
  | ok r =>
    simp only [studentPathMatches, Bool.and_eq_false_iff] at h
    rcases h with h | h
    · simp [studentLoginBlock, h]
    · have hst : r.student = none := Option.not_isSome_iff_eq_none.mp (by simp [h])
      cases hs : r.success <;> simp [studentLoginBlock, hs, hst]
  | error e => rfl

/-- C1.  Login precedence: the officer, coordinator and student verification
paths are tried in that fixed order and the first positive match determines
the session.  If the officer path matches (API success, or API failure with a
fallback-credential match) the session role is officer — whatever the
coordinator and student paths would say; if the officer path does not match
but the coordinator path does, the role is coordinator; if only the student
path matches, the role is student. -/
theorem claim_C1 (creds : Credentials) (oRes : Except Unit OfficerLoginResp)
    (cRes : Except Unit CoordinatorLoginResp) (stRes : Except Unit StudentLoginResp)
    (s : AppState) :
    (officerPathMatches creds oRes s.officerCredentials = true →
      sessionRole (handleLogin creds oRes cRes stRes s).currentUser = some UserType.officer ∧
      (handleLogin creds oRes cRes stRes s).isLoggedIn = true ∧
      (handleLogin creds oRes cRes stRes s).currentView = View.officer) ∧
    (officerPathMatches creds oRes s.officerCredentials = false →
      coordPathMatches cRes = true →
      sessionRole (handleLogin creds oRes cRes stRes s).currentUser =
        some UserType.coordinator ∧
      (handleLogin creds oRes cRes stRes s).isLoggedIn = true ∧
      (handleLogin creds oRes cRes stRes s).currentView = View.coordinator) ∧
    (officerPathMatches creds oRes s.officerCredentials = false →
      coordPathMatches cRes = false →
      studentPathMatches stRes = true →
      sessionRole (handleLogin creds oRes cRes stRes s).currentUser = some UserType.student ∧
      (handleLogin creds oRes cRes stRes s).isLoggedIn = true ∧
      (handleLogin creds oRes cRes stRes s).currentView = View.student) := by
  refine ⟨?_, ?_, ?_⟩
  · intro hOff
    obtain ⟨u, hu, hblock⟩ := officerLoginBlock_matches creds oRes s hOff
    simp [handleLogin, hblock, loginSucceed, sessionRole, hu]
  · intro hOff hCoord
    obtain ⟨c, hblock⟩ := coordinatorLoginBlock_matches cRes s hCoord
    simp [handleLogin, officerLoginBlock_no_match creds oRes s hOff, hblock, loginSucceed,
      sessionRole]
  · intro hOff hCoord hStud
    obtain ⟨st, hblock⟩ := studentLoginBlock_matches stRes s hStud
    simp [handleLogin, officerLoginBlock_no_match creds oRes s hOff,
      coordinatorLoginBlock_no_match cRes s hCoord, hblock, loginSucceed, sessionRole]

/-- C1 witness: credentials that both the officer API and the coordinator API
accept produce an officer session. -/
theorem claim_C1_witness :
    sessionRole (handleLogin ⟨"OFFICER001", "NSS@OFFICER2025"⟩
        (Except.ok ⟨true, some ⟨"OFFICER001", "OFFICER001", "Program Officer",
          "po@example.edu", "super admin", true, "2025-01-01"⟩⟩)
        (Except.ok ⟨true, some sampleCoordinator⟩)
        (Except.ok ⟨false, none⟩)
        sampleState).currentUser = some UserType.officer :=
  ((claim_C1 ⟨"OFFICER001", "NSS@OFFICER2025"⟩
    (Except.ok ⟨true, some ⟨"OFFICER001", "OFFICER001", "Program Officer",
      "po@example.edu", "super admin", true, "2025-01-01"⟩⟩)
    (Except.ok ⟨true, some sampleCoordinator⟩)
    (Except.ok ⟨false, none⟩)
    sampleState).1 rfl).1

/-- C7.  Login failure handling: a verification path that throws is treated
as no match and the next path in precedence order is attempted (an officer
API failure with no fallback match falls through to a matching coordinator
path; a coordinator API failure falls through to a matching student path);
and when no path matches, the only state change is the user-facing
`Invalid credentials` alert — the session fields are untouched, so a
logged-out state stays logged out, with no retry. -/
theorem claim_C7 (creds : Credentials) (oRes : Except Unit OfficerLoginResp)
    (cRes : Except Unit CoordinatorLoginResp) (stRes : Except Unit StudentLoginResp)
    (s : AppState) :
    (officerPathMatches creds oRes s.officerCredentials = false →
      coordPathMatches cRes = false →
      studentPathMatches stRes = false →
      handleLogin creds oRes cRes stRes s =
        { s with alerts := s.alerts ++ ["Invalid credentials"] }) ∧
    (∀ e : Unit, findFallbackOfficer creds s.officerCredentials = none →
      coordPathMatches cRes = true →
      (handleLogin creds (Except.error e) cRes stRes s).isLoggedIn = true ∧
      sessionRole (handleLogin creds (Except.error e) cRes stRes s).currentUser =
        some UserType.coordinator) ∧
    (∀ e : Unit, officerPathMatches creds oRes s.officerCredentials = false →
      studentPathMatches stRes = true →
      (handleLogin creds oRes (Except.error e) stRes s).isLoggedIn = true ∧
      sessionRole (handleLogin creds oRes (Except.error e) stRes s).currentUser =
        some UserType.student) := by
  refine ⟨?_, ?_, ?_⟩
  · intro hOff hCoord hStud
    simp [handleLogin, officerLoginBlock_no_match creds oRes s hOff,
      coordinatorLoginBlock_no_match cRes s hCoord,
      studentLoginBlock_no_match stRes s hStud]
  · intro e hfb hCoord
    have hOff : officerPathMatches creds (Except.error e) s.officerCredentials = false := by
      simp [officerPathMatches, hfb]
    obtain ⟨c, hblock⟩ := coordinatorLoginBlock_matches cRes s hCoord
    simp [handleLogin, officerLoginBlock_no_match creds (Except.error e) s hOff, hblock,
      loginSucceed, sessionRole]
  · intro e hOff hStud
    obtain ⟨st, hblock⟩ := studentLoginBlock_matches stRes s hStud
    simp [handleLogin, officerLoginBlock_no_match creds oRes s hOff,
      coordinatorLoginBlock_no_match (Except.error e) s rfl, hblock, loginSucceed,
      sessionRole]

/-- C7 witness: with every path failing to reach its source and no fallback
match, the only change is the invalid-credentials alert; and with the officer
API down but the coordinator path matching, the coordinator wins. -/
theorem claim_C7_witness :
    handleLogin ⟨"nobody", "wrong"⟩ (Except.error ()) (Except.error ()) (Except.error ())
        sampleState =
      { sampleState with alerts := sampleState.alerts ++ ["Invalid credentials"] } ∧
    (handleLogin ⟨"nobody", "wrong"⟩ (Except.error ())
        (Except.ok ⟨true, some sampleCoordinator⟩) (Except.error ())
        sampleState).isLoggedIn = true :=
  ⟨(claim_C7 ⟨"nobody", "wrong"⟩ (Except.error ()) (Except.error ()) (Except.error ())
      sampleState).1 rfl rfl rfl,
    ((claim_C7 ⟨"nobody", "wrong"⟩ (Except.error ())
        (Except.ok ⟨true, some sampleCoordinator⟩) (Except.error ())
        sampleState).2.1 () rfl rfl).1⟩

/-- C6.  Initial-load fan-in: the load proceeds past `Promise.all` only when
all four fetches succeed.  If any one of the programs / students /
coordinators / departments fetches fails, the whole load fails: a loading
error is recorded, the application shows the connection-error screen, and
none of the four domain collections (nor the reports map) is touched — never
a partially populated home page.  When all four succeed, no loading error is
recorded and all four collections are populated with the fetched data. -/
theorem claim_C6 (progsRes : Except String (List Program))
    (studsRes : Except String (List RegisteredStudent))
    (coordsRes : Except String (List Coordinator))
    (depsRes : Except String (List Department))
    (reportsRes : Except String (List ReportApiRecord)) (s : AppState) :
    (((∃ e, progsRes = Except.error e) ∨ (∃ e, studsRes = Except.error e) ∨
        (∃ e, coordsRes = Except.error e) ∨ (∃ e, depsRes = Except.error e)) →
      (∃ m, (loadInitialData (Except.ok ()) progsRes studsRes coordsRes depsRes reportsRes
          s).loadingError = some m) ∧
      appScreen (loadInitialData (Except.ok ()) progsRes studsRes coordsRes depsRes
          reportsRes s) = Screen.connectionErrorScreen ∧
      (loadInitialData (Except.ok ()) progsRes studsRes coordsRes depsRes reportsRes
          s).programs = s.programs ∧
      (loadInitialData (Except.ok ()) progsRes studsRes coordsRes depsRes reportsRes
          s).registeredStudents = s.registeredStudents ∧
      (loadInitialData (Except.ok ()) progsRes studsRes coordsRes depsRes reportsRes
          s).coordinators = s.coordinators ∧
      (loadInitialData (Except.ok ()) progsRes studsRes coordsRes depsRes reportsRes
          s).departments = s.departments ∧
      (loadInitialData (Except.ok ()) progsRes studsRes coordsRes depsRes reportsRes
          s).studentReports = s.studentReports) ∧
    (∀ p st c d, progsRes = Except.ok p → studsRes = Except.ok st →
      coordsRes = Except.ok c → depsRes = Except.ok d →
      (loadInitialData (Except.ok ()) progsRes studsRes coordsRes depsRes reportsRes
          s).loadingError = none ∧
      (loadInitialData (Except.ok ()) progsRes studsRes coordsRes depsRes reportsRes
          s).programs = p ∧
      (loadInitialData (Except.ok ()) progsRes studsRes coordsRes depsRes reportsRes
          s).registeredStudents = st ∧
      (loadInitialData (Except.ok ()) progsRes studsRes coordsRes depsRes reportsRes
          s).coordinators = c ∧
      (loadInitialData (Except.ok ()) progsRes studsRes coordsRes depsRes reportsRes
          s).departments = d) := by
  constructor
  · intro herr
    rcases progsRes with ep | p
    · simp [loadInitialData, promiseAll4, Except.bind, appScreen]
    rcases studsRes with es | st
    · simp [loadInitialData, promiseAll4, Except.bind, appScreen]
    rcases coordsRes with ec | c
    · simp [loadInitialData, promiseAll4, Except.bind, appScreen]
    rcases depsRes with ed | d
    · simp [loadInitialData, promiseAll4, Except.bind, appScreen]
    simp at herr
  · intro p st c d hp hst hc hd
    subst hp hst hc hd
    cases reportsRes <;> simp [loadInitialData, promiseAll4, Except.bind]

/-- C6 witness: when the programs fetch fails and the other three succeed,
the connection-error screen is shown and no collection is touched. -/
theorem claim_C6_witness :
    (∃ m, (loadInitialData (Except.ok ()) (Except.error "HTTP 500") (Except.ok [sampleStudent])
        (Except.ok [sampleCoordinator]) (Except.ok [sampleDepartment]) (Except.ok [])
        sampleState).loadingError = some m) ∧
    appScreen (loadInitialData (Except.ok ()) (Except.error "HTTP 500")
        (Except.ok [sampleStudent]) (Except.ok [sampleCoordinator])
        (Except.ok [sampleDepartment]) (Except.ok []) sampleState) =
      Screen.connectionErrorScreen ∧
    (loadInitialData (Except.ok ()) (Except.error "HTTP 500") (Except.ok [sampleStudent])
        (Except.ok [sampleCoordinator]) (Except.ok [sampleDepartment]) (Except.ok [])
        sampleState).programs = sampleState.programs ∧
    (loadInitialData (Except.ok ()) (Except.error "HTTP 500") (Except.ok [sampleStudent])
        (Except.ok [sampleCoordinator]) (Except.ok [sampleDepartment]) (Except.ok [])
        sampleState).registeredStudents = sampleState.registeredStudents ∧
    (loadInitialData (Except.ok ()) (Except.error "HTTP 500") (Except.ok [sampleStudent])
        (Except.ok [sampleCoordinator]) (Except.ok [sampleDepartment]) (Except.ok [])
        sampleState).coordinators = sampleState.coordinators ∧
    (loadInitialData (Except.ok ()) (Except.error "HTTP 500") (Except.ok [sampleStudent])
        (Except.ok [sampleCoordinator]) (Except.ok [sampleDepartment]) (Except.ok [])
        sampleState).departments = sampleState.departments ∧
    (loadInitialData (Except.ok ()) (Except.error "HTTP 500") (Except.ok [sampleStudent])
        (Except.ok [sampleCoordinator]) (Except.ok [sampleDepartment]) (Except.ok [])
        sampleState).studentReports = sampleState.studentReports :=
  (claim_C6 (Except.error "HTTP 500") (Except.ok [sampleStudent])
    (Except.ok [sampleCoordinator]) (Except.ok [sampleDepartment]) (Except.ok [])
    sampleState).1 (Or.inl ⟨"HTTP 500", rfl⟩)

/-- The state after a failed CRUD action whose alert text is `msg`: only the
alert log changes. -/
def alertOnly (s : AppState) (msg : String) : AppState :=
  { s with alerts := s.alerts ++ [msg] }

/-- C8.  CRUD failure atomicity: for every create / update / delete handler
of programs, students, coordinators and departments, a server failure leaves
the whole local state unmodified except for one user-facing alert (no local
mutation happens before server confirmation); for the guarded update
handlers the same holds whenever the target record exists, and when it does
not exist no call is made and nothing at all changes.  The one exception is
the participant-list edit, which applies to local state immediately and
unconditionally — it takes no server outcome at all. -/
theorem claim_C8 (s : AppState) :
    (∀ pd lt, handleAddProgram pd (Except.error ()) lt s =
      alertOnly s "Failed to add program. Please try again.") ∧
    (∀ i pd, handleEditProgram i pd (Except.error ()) s =
      alertOnly s "Failed to edit program. Please try again.") ∧
    (∀ i, handleDeleteProgram i (Except.error ()) s =
      alertOnly s "Failed to delete program. Please try again.") ∧
    (handleAddStudent (Except.error ()) s =
      alertOnly s "Failed to add student. Please try again.") ∧
    (∀ i, handleEditStudent i (Except.error ()) s =
      alertOnly s "Failed to edit student. Please try again.") ∧
    (∀ i r, handleDeleteStudent i (Except.error ()) r s =
      alertOnly s "Failed to delete student. Please try again.") ∧
    (handleAddCoordinator (Except.error ()) s =
      alertOnly s "Failed to add coordinator. Please try again.") ∧
    (∀ i, handleEditCoordinator i (Except.error ()) s =
      alertOnly s "Failed to edit coordinator. Please try again.") ∧
    (∀ i c, s.coordinators.find? (fun x => x.id == i) = some c →
      handleToggleCoordinatorAccess i (Except.error ()) s =
        alertOnly s "Failed to update coordinator access. Please try again.") ∧
    (∀ i, s.coordinators.find? (fun x => x.id == i) = none →
      handleToggleCoordinatorAccess i (Except.error ()) s = s) ∧
    (∀ i, handleDeleteCoordinator i (Except.error ()) s =
      alertOnly s "Failed to delete coordinator. Please try again.") ∧
    (handleAddDepartment (Except.error ()) s =
      alertOnly s "Failed to add department. Please try again.") ∧
    (∀ i n d, s.departments.find? (fun x => x.id == i) = some d →
      handleEditDepartment i n (Except.error ()) s =
        alertOnly s "Failed to edit department. Please try again.") ∧
    (∀ i d, s.departments.find? (fun x => x.id == i) = some d →
      handleToggleDepartment i (Except.error ()) s =
        alertOnly s "Failed to update department status. Please try again.") ∧
    (∀ pid ids now, handleAddParticipants pid ids now s =
      { s with programs := s.programs.map fun program =>
          if program.id == pid then
            { program with participantIds := some ids, updatedAt := some now }
          else program }) := by
  refine ⟨fun pd lt => rfl, fun i pd => rfl, fun i => rfl, rfl, fun i => rfl,
    fun i r => rfl, rfl, fun i => rfl, ?_, ?_, fun i => rfl, rfl, ?_, ?_,
    fun pid ids now => rfl⟩
  · intro i c hc
    simp [handleToggleCoordinatorAccess, hc, alertOnly]
  · intro i hc
    simp [handleToggleCoordinatorAccess, hc]
  · intro i n d hd
    simp [handleEditDepartment, hd, alertOnly]
  · intro i d hd
    simp [handleToggleDepartment, hd, alertOnly]

/-- C8 witness: at the populated sample state, failing updates of the
existing coordinator C1 and department D1 change nothing but the alert
log. -/
theorem claim_C8_witness :
    handleToggleCoordinatorAccess "C1" (Except.error ()) sampleRichState =
      alertOnly sampleRichState "Failed to update coordinator access. Please try again." ∧
    handleEditDepartment "D1" "Applied Physics" (Except.error ()) sampleRichState =
      alertOnly sampleRichState "Failed to edit department. Please try again." ∧
    handleToggleDepartment "D1" (Except.error ()) sampleRichState =
      alertOnly sampleRichState "Failed to update department status. Please try again." ∧
    handleToggleCoordinatorAccess "C9" (Except.error ()) sampleRichState = sampleRichState :=
  ⟨(claim_C8 sampleRichState).2.2.2.2.2.2.2.2.1 "C1" sampleCoordinator rfl,
    (claim_C8 sampleRichState).2.2.2.2.2.2.2.2.2.2.2.2.1 "D1" "Applied Physics"
      sampleDepartment rfl,
    (claim_C8 sampleRichState).2.2.2.2.2.2.2.2.2.2.2.2.2.1 "D1" sampleDepartment rfl,
    (claim_C8 sampleRichState).2.2.2.2.2.2.2.2.2.1 "C9" rfl⟩

/-- C9.  Cascade on student deletion: after a successful delete of student
`i` (whatever the report-endpoint delete returned), `i` is gone from the
registered-students list (exactly the entries with another id remain, in
order), every program keeps all its other fields and loses exactly `i` from
its participant list, the report entry keyed by `i` is gone while every other
key is untouched, and no other part of the state changes. -/
theorem claim_C9 (i : String) (reportDelRes : Except Unit Unit) (s : AppState) :
    (handleDeleteStudent i (Except.ok ()) reportDelRes s).registeredStudents =
      s.registeredStudents.filter (fun st => st.id != i) ∧
    (∀ st ∈ (handleDeleteStudent i (Except.ok ()) reportDelRes s).registeredStudents,
      st.id ≠ i) ∧
    (handleDeleteStudent i (Except.ok ()) reportDelRes s).programs =
      s.programs.map (fun p =>
        { p with participantIds := some ((p.participantIds.getD []).filter fun x => x != i) }) ∧
    (∀ p ∈ (handleDeleteStudent i (Except.ok ()) reportDelRes s).programs,
      i ∉ p.participantIds.getD []) ∧
    (handleDeleteStudent i (Except.ok ()) reportDelRes s).studentReports i = none ∧
    (∀ k, k ≠ i →
      (handleDeleteStudent i (Except.ok ()) reportDelRes s).studentReports k =
        s.studentReports k) ∧
    (handleDeleteStudent i (Except.ok ()) reportDelRes s).coordinators = s.coordinators ∧
    (handleDeleteStudent i (Except.ok ()) reportDelRes s).departments = s.departments ∧
    (handleDeleteStudent i (Except.ok ()) reportDelRes s).alerts = s.alerts ∧
    (handleDeleteStudent i (Except.ok ()) reportDelRes s).currentView = s.currentView ∧
    (handleDeleteStudent i (Except.ok ()) reportDelRes s).isLoggedIn = s.isLoggedIn ∧
    (handleDeleteStudent i (Except.ok ()) reportDelRes s).currentUser = s.currentUser ∧
    (handleDeleteStudent i (Except.ok ()) reportDelRes s).logoutTimer = s.logoutTimer := by
  refine ⟨rfl, ?_, rfl, ?_, ?_, ?_, rfl, rfl, rfl, rfl, rfl, rfl, rfl⟩
  · intro st hst
    simp only [handleDeleteStudent, List.mem_filter, bne_iff_ne, ne_eq] at hst
    exact hst.2
  · intro p hp
    simp only [handleDeleteStudent, List.mem_map] at hp
    obtain ⟨q, _, hq⟩ := hp
    subst hq
    simp [List.mem_filter]
  · simp [handleDeleteStudent]
  · intro k hk
    simp [handleDeleteStudent, hk]

/-- C9 witness: deleting student S1 from the populated sample state removes
it from the participant list of program P1 and drops its report entry, while
the S2 entries survive. -/
theorem claim_C9_witness :
    (∀ p ∈ (handleDeleteStudent "S1" (Except.ok ()) (Except.ok ())
        sampleRichState).programs, "S1" ∉ p.participantIds.getD []) ∧
    (handleDeleteStudent "S1" (Except.ok ()) (Except.ok ())
      sampleRichState).studentReports "S1" = none ∧
    (handleDeleteStudent "S1" (Except.ok ()) (Except.ok ())
        sampleRichState).studentReports "S2" = sampleRichState.studentReports "S2" :=
  ⟨(claim_C9 "S1" (Except.ok ()) sampleRichState).2.2.2.1,
    (claim_C9 "S1" (Except.ok ()) sampleRichState).2.2.2.2.1,
    (claim_C9 "S1" (Except.ok ()) sampleRichState).2.2.2.2.2.1 "S2" (by decide)⟩

/-- C10.  Department-rename propagation: when no department with the given
id exists locally, the handler changes nothing at all (for any server
outcome, since no call is made).  After a successful edit of the department
found for that id, every registered student whose `department` equals the
old name gets exactly `newName` there, every other student stays exactly in
place unchanged, and programs, coordinators, reports and the session are
untouched. -/
theorem claim_C10 (i newName : String) (res : Except Unit Department) (s : AppState) :
    (s.departments.find? (fun d => d.id == i) = none →
      handleEditDepartment i newName res s = s) ∧
    (∀ oldD updD, s.departments.find? (fun d => d.id == i) = some oldD →
      (handleEditDepartment i newName (Except.ok updD) s).registeredStudents =
        s.registeredStudents.map (fun st =>
          if st.department == oldD.name then { st with department := newName } else st) ∧
      (∀ st ∈ s.registeredStudents, st.department ≠ oldD.name →
        st ∈ (handleEditDepartment i newName (Except.ok updD) s).registeredStudents) ∧
      (handleEditDepartment i newName (Except.ok updD) s).programs = s.programs ∧
      (handleEditDepartment i newName (Except.ok updD) s).coordinators = s.coordinators ∧
      (handleEditDepartment i newName (Except.ok updD) s).studentReports =
        s.studentReports ∧
      (handleEditDepartment i newName (Except.ok updD) s).alerts = s.alerts ∧
      (handleEditDepartment i newName (Except.ok updD) s).isLoggedIn = s.isLoggedIn ∧
      (handleEditDepartment i newName (Except.ok updD) s).currentUser = s.currentUser) := by
  constructor
  · intro hnone
    simp [handleEditDepartment, hnone]
  · intro oldD updD hfind
    have hred : handleEditDepartment i newName (Except.ok updD) s =
        { s with
          departments := s.departments.map fun d =>
            if d.id == i then updD else d
          registeredStudents := s.registeredStudents.map fun st =>
            if st.department == oldD.name then { st with department := newName }
            else st } := by
      simp [handleEditDepartment, hfind]
    rw [hred]
    refine ⟨rfl, ?_, rfl, rfl, rfl, rfl, rfl, rfl⟩
    intro st hst hne
    have hcond : (st.department == oldD.name) = false := by
      simp [hne]
    have : (if st.department == oldD.name then { st with department := newName }
        else st) = st := by
      rw [hcond]
      rfl
    have hmem := List.mem_map_of_mem
      (fun st => if st.department == oldD.name then { st with department := newName }
        else st) hst
    simp only [this] at hmem
    exact hmem

/-- C10 witness: renaming department D1 (Physics) to Applied Physics updates
student S1 (Physics) and leaves student S2 (Chemistry) in place; a lookup
with an unknown department id changes nothing. -/
theorem claim_C10_witness :
    (handleEditDepartment "D1" "Applied Physics"
        (Except.ok { sampleDepartment with name := "Applied Physics" })
        sampleRichState).registeredStudents =
      sampleRichState.registeredStudents.map (fun st =>
        if st.department == sampleDepartment.name then
          { st with department := "Applied Physics" }
        else st) ∧
    sampleStudent2 ∈ (handleEditDepartment "D1" "Applied Physics"
        (Except.ok { sampleDepartment with name := "Applied Physics" })
        sampleRichState).registeredStudents ∧
    handleEditDepartment "D9" "X" (Except.error ()) sampleRichState = sampleRichState :=
  ⟨((claim_C10 "D1" "Applied Physics"
      (Except.ok { sampleDepartment with name := "Applied Physics" })
      sampleRichState).2 sampleDepartment
      { sampleDepartment with name := "Applied Physics" } rfl).1,
    ((claim_C10 "D1" "Applied Physics"
      (Except.ok { sampleDepartment with name := "Applied Physics" })
      sampleRichState).2 sampleDepartment
      { sampleDepartment with name := "Applied Physics" } rfl).2.1 sampleStudent2
      (by decide) (by decide),
    (claim_C10 "D9" "X" (Except.error ()) sampleRichState).1 rfl⟩

end NSSMamoc
